import Mathlib

/-!
# Raft peer construction and the election-timeout loop

A shallow embedding of `src/raft/raft_new.go`: the `Raft` record, its `String`
method, the constructor `newRaft` and the background loop `electionTimeOutLoop`.

Conventions of the embedding:

* a Go `int` is an `Int` (the file does no arithmetic on them);
* a Go slice is the list of its elements, the nil slice being the empty list
  (`len(nil) = 0`);
* a pointer is the object it points to; the file never writes through `peers`
  or `persister`;
* `time.Duration` values are natural numbers of nanoseconds;
* a Go `interface{}` value is `Option Nat`: `none` is `nil`, `some n` a payload;
* the loop is a reactive program: what the rest of the process does while the
  loop runs (shutting the peer down, the timer firing, a reset signal) is given
  to it as a schedule, and what the loop and the process did is recorded in a
  trace.
-/

namespace raft

/-! ## Declarations the file takes from the rest of the package -/

/-- Modelled from the spec: type `LogEntry` is declared in another file of the
package. Section 3: "LogEntry: {term: integer, index: integer (1-based, implicit
via position), command: opaque payload}". The index is the position in `logs`. -/
structure LogEntry where
  LogTerm : Int
  Command : Option Nat
  deriving DecidableEq, Repr

/-- The Go zero value of `LogEntry`, which is what `make([]LogEntry, n)` fills
the new slice with: term 0 and a nil command. -/
def LogEntry.zero : LogEntry := ⟨0, none⟩

/-- Modelled from the spec: type `fsmState` and its constants are declared in
another file. Section 3: "Role: one of {Follower, Candidate, Leader}". -/
inductive fsmState where
  | FOLLOWER
  | CANDIDATE
  | LEADER
  deriving DecidableEq, Repr

/-- Modelled from the spec: type `fsmEvent` is declared in another file; section 9
speaks of "event types" of a fixed, small set. An event is identified by its name. -/
structure fsmEvent where
  name : String
  deriving DecidableEq, Repr

/-- Modelled from the spec: type `fsmHandler` is a function type declared in
another file ("mapping role × event → handler function"). A handler stored in the
dispatch table is identified by a number. -/
abbrev fsmHandler := Nat

/-- The type of `Raft.handlers`, `map[fsmState]map[fsmEvent]fsmHandler`, as an
association list. -/
abbrev HandlerTable := List (fsmState × List (fsmEvent × fsmHandler))

/-- Modelled from the spec: type `Persister` is declared in another file.
Section 6: "Durable-storage collaborator: exposes saveState(currentTerm, votedFor,
log) (atomic) and loadState() -> (currentTerm, votedFor, log)". The object holds
the triple saved last, or nothing when nothing was saved yet. -/
structure Persister where
  saved : Option (Int × Int × List LogEntry)
  deriving DecidableEq, Repr

/-- Modelled from the spec: `loadState()` of the durable-storage collaborator
(section 6) returns the triple that was saved last. -/
def Persister.loadState (p : Persister) : Option (Int × Int × List LogEntry) := p.saved

/-- A `sync.RWMutex`: whether a writer holds it and how many readers do. -/
structure RWMutex where
  writer : Bool
  readers : Nat
  deriving DecidableEq, Repr

/-- A `chan struct{}` without buffer: all the file can observe of it is whether it
has been closed. -/
structure Chan where
  closed : Bool
  deriving DecidableEq, Repr

/-- The result of `make(chan struct{})`: an open channel. -/
def Chan.make : Chan := ⟨false⟩

/-- A `*time.Timer`: the duration, in nanoseconds, it was armed with last. -/
structure Timer where
  d : Nat
  deriving DecidableEq, Repr

/-- The constant `time.Second`, in nanoseconds. -/
def Second : Nat := 1000000000

/-- The call `time.NewTimer(d)`. -/
def NewTimer (d : Nat) : Timer := ⟨d⟩

/-! ## The peer -/

/-- The struct `Raft` (lines 11-65), field by field. A `*labrpc.ClientEnd` is
identified by a number. -/
structure Raft where
  rwmu : RWMutex
  peers : List Nat
  persister : Persister
  me : Int
  currentTerm : Int
  votedFor : Int
  logs : List LogEntry
  commitIndex : Int
  lastApplied : Int
  nextIndex : List Int
  matchIndex : List Int
  state : fsmState
  handlers : HandlerTable
  electionTimer : Timer
  shutdownChan : Chan
  resetElectionTimerChan : Chan
  convertToFollowerChan : Chan
  appendedNewEntriesChan : Chan
  deriving Repr

/-- The constants and functions of package raft that the file uses and that are
declared in its other files, taken as parameters: the constant `NULL`, the
constant `electionTimeOutEvent`, the table that `addAllHandler` registers, the
dispatch `rf.call(event, args)` as a transformer of the peer, and the renderings
that `fmt.Sprintf` uses for `%s` of an `fsmState` and `%v` of a log. -/
structure Decls where
  NULL : Int
  electionTimeOutEvent : fsmEvent
  table : HandlerTable
  call : fsmEvent → Option Nat → Raft → Raft
  fmtState : fsmState → String
  fmtLogs : List LogEntry → String

/-- Modelled from the spec: method `addAllHandler` is defined in another file.
Section 9: "The explicit state/event/handler table in the source (mapping role ×
event → handler function) is a finite-state-machine dispatch table". It fills
`rf.handlers` with the table and touches no other field. -/
def Raft.addAllHandler (d : Decls) (rf : Raft) : Raft :=
  { rf with handlers := d.table }

/-- Modelled from the spec: method `electionTimerReset` is defined in another file.
Section 4.2: "Election timeout is randomized per peer within a fixed range (e.g., a
base duration plus jitter) each time it is (re)armed". The duration drawn for this
call is the argument `timeout`; the timer is re-armed with it and no other field
is touched. -/
def Raft.electionTimerReset (timeout : Nat) (rf : Raft) : Raft :=
  { rf with electionTimer := ⟨timeout⟩ }

/-- Modelled from the spec: method `hasShutdown` is defined in another file.
Section 5: "process shutdown signals all background loops to exit"; the field
comment of `shutdownChan` (line 52) says the channel carries that signal. The peer
has shut down when `shutdownChan` is closed; the method only reads. -/
def Raft.hasShutdown (rf : Raft) : Bool := rf.shutdownChan.closed

/-- Modelled from the spec: the shutdown of the peer by the rest of the process
(section 5, "process shutdown signals all background loops"): `shutdownChan` is
closed, nothing else changes. -/
def Raft.shutdown (rf : Raft) : Raft :=
  { rf with shutdownChan := ⟨true⟩ }

/-- The text type of Go, named apart from the method `String` below. -/
abbrev GoString := String

/-- Method `String` (lines 67-70): `fmt.Sprintf("%d:%s:%d, commitIndex:%d,
lastApplied:%d, logs:%v", rf.me, rf.state, rf.currentTerm, rf.commitIndex,
rf.lastApplied, rf.logs)`. It returns the text and the peer, which it only
reads. -/
def Raft.String (d : Decls) (rf : Raft) : GoString × Raft :=
  (toString rf.me ++ ":" ++ d.fmtState rf.state ++ ":" ++ toString rf.currentTerm
    ++ ", commitIndex:" ++ toString rf.commitIndex
    ++ ", lastApplied:" ++ toString rf.lastApplied
    ++ ", logs:" ++ d.fmtLogs rf.logs, rf)

/-- Function `newRaft` (lines 72-99). The struct literal sets the fields it names;
`rwmu`, `nextIndex` and `matchIndex` are not named and take their zero values.
Then `addAllHandler` and `electionTimerReset` run (`timeout` is the duration the
latter draws). The statement `go electionTimeOutLoop(rf)` starts the loop below
as a separate flow on the returned peer; it is not part of the returned value. -/
def newRaft (d : Decls) (timeout : Nat) (peers : List Nat) (me : Int)
    (persister : Persister) : Raft :=
  let rf : Raft :=
    { rwmu := ⟨false, 0⟩
      peers := peers
      persister := persister
      me := me
      currentTerm := 0
      votedFor := d.NULL
      logs := List.replicate 1 LogEntry.zero
      commitIndex := 0
      lastApplied := 0
      nextIndex := []
      matchIndex := []
      state := fsmState.FOLLOWER
      handlers := []
      electionTimer := NewTimer Second
      shutdownChan := Chan.make
      convertToFollowerChan := Chan.make
      resetElectionTimerChan := Chan.make
      appendedNewEntriesChan := Chan.make }
  let rf := rf.addAllHandler d
  let rf := rf.electionTimerReset timeout
  rf

/-! ## The election-timeout loop -/

/-- Which case of the `select` (lines 108-113) runs: the timer fired, or a signal
arrived on `resetElectionTimerChan`. -/
inductive SelectCase where
  | timerFired
  | resetSignal
  deriving DecidableEq, Repr

/-- What happens around one iteration of the loop: whether the rest of the process
shuts the peer down before the iteration's `hasShutdown` check, whether it does so
while the loop waits in the `select`, which case wakes the `select`, and the
duration `electionTimerReset` draws if it is called. -/
structure Tick where
  killBeforeCheck : Bool
  killWhileWaiting : Bool
  wake : SelectCase
  timeout : Nat
  deriving DecidableEq, Repr

/-- One entry of the trace of a run: the peer was shut down (by the rest of the
process), the loop called `rf.call(ev, args)`, or the loop called
`rf.electionTimerReset()`. -/
inductive Item where
  | shutdown
  | call (ev : fsmEvent) (args : Option Nat)
  | electionTimerReset
  deriving DecidableEq, Repr

/-- How a run of the loop stands when the schedule is used up: the loop has
returned, or it waits in the `select`. -/
inductive Outcome where
  | returned
  | waiting
  deriving DecidableEq, Repr

/-- The result of a run: the peer, the trace, and the outcome. -/
structure Run where
  rf : Raft
  trace : List Item
  outcome : Outcome

/-- The shutdown of the peer by the rest of the process when `b` holds, with its
trace. -/
def killIf (b : Bool) (rf : Raft) : Raft × List Item :=
  if b then (rf.shutdown, [Item.shutdown]) else (rf, [])

/-- One iteration of the `for` loop (lines 104-113) under a tick: the peer after
it, the trace of the iteration, and whether the loop returned in it. -/
def iteration (d : Decls) (rf : Raft) (t : Tick) : Raft × List Item × Bool :=
  let (rf1, tr1) := killIf t.killBeforeCheck rf
  if rf1.hasShutdown then
    (rf1, tr1, true)
  else
    let (rf2, tr2) := killIf t.killWhileWaiting rf1
    match t.wake with
    | SelectCase.timerFired =>
      (d.call d.electionTimeOutEvent none rf2,
        tr1 ++ tr2 ++ [Item.call d.electionTimeOutEvent none], false)
    | SelectCase.resetSignal =>
      (rf2.electionTimerReset t.timeout, tr1 ++ tr2 ++ [Item.electionTimerReset], false)

/-- Function `electionTimeOutLoop` (lines 102-115) run under a schedule, one tick
for each iteration. When the schedule is used up the loop makes its check once more
and either returns or is left waiting in the `select`; `killAtEnd` says whether the
peer is shut down during that last wait. -/
def electionTimeOutLoop (d : Decls) (killAtEnd : Bool) (rf : Raft) : List Tick → Run
  | [] =>
    if rf.hasShutdown then ⟨rf, [], Outcome.returned⟩
    else ⟨(killIf killAtEnd rf).1, (killIf killAtEnd rf).2, Outcome.waiting⟩
  | t :: ts =>
    match iteration d rf t with
    | (rf1, tr, true) => ⟨rf1, tr, Outcome.returned⟩
    | (rf1, tr, false) =>
      let r := electionTimeOutLoop d killAtEnd rf1 ts
      ⟨r.rf, tr ++ r.trace, r.outcome⟩

/-- Whether a trace entry is an action of the loop itself. -/
def Item.isLoopAction : Item → Bool
  | Item.shutdown => false
  | Item.call _ _ => true
  | Item.electionTimerReset => true

/-- The actions of the loop in a trace, in order. -/
def loopActions (tr : List Item) : List Item := tr.filter Item.isLoopAction

/-- The part of a trace that follows the first shutdown of the peer (empty when
the peer is not shut down in the trace). -/
def afterShutdown : List Item → List Item
  | [] => []
  | Item.shutdown :: rest => rest
  | _ :: rest => afterShutdown rest

/-- The property that the volatile indices are ordered: `commitIndex ≥ lastApplied`. -/
def Raft.inv (rf : Raft) : Prop := rf.commitIndex ≥ rf.lastApplied

instance (rf : Raft) : Decidable rf.inv := by unfold Raft.inv; infer_instance

/-! ## Concrete declarations and inputs for the closed statements -/

/-- A concrete set of declarations: `NULL` is -1, the timeout handler of a follower
is handler 1, and dispatching an event makes the peer a candidate of the next term
that votes for itself (section 4.1, side effects on entry to Candidate). -/
def labDecls : Decls where
  NULL := -1
  electionTimeOutEvent := ⟨"electionTimeOut"⟩
  table := [(fsmState.FOLLOWER, [(⟨"electionTimeOut"⟩, 1)])]
  call := fun _ _ rf =>
    { rf with state := fsmState.CANDIDATE, currentTerm := rf.currentTerm + 1, votedFor := rf.me }
  fmtState := fun s =>
    match s with
    | fsmState.FOLLOWER => "Follower"
    | fsmState.CANDIDATE => "Candidate"
    | fsmState.LEADER => "Leader"
  fmtLogs := fun l => toString l.length

/-- The declarations of labDecls with another dispatch: the handler replaces
shutdownChan by a channel made anew, so a peer that has shut down is live again
after it. -/
def remakeDecls : Decls :=
  { labDecls with call := fun _ _ rf => { rf with shutdownChan := Chan.make } }

/-- A persister that holds a saved triple: term 5, vote for peer 2, and a log of
the sentinel and one entry of term 5. -/
def savedPersister : Persister :=
  ⟨some (5, 2, [LogEntry.zero, ⟨5, some 7⟩])⟩

/-- A persister in which nothing was saved. -/
def freshPersister : Persister := ⟨none⟩

/-- A peer as newRaft returns it: peer 0 of three, timer armed with 150 ms. -/
def startPeer : Raft := newRaft labDecls 150000000 [10, 11, 12] 0 freshPersister

/-- A tick in which the peer is shut down while the loop waits and the timer then
fires. -/
def killThenFire : Tick := ⟨false, true, SelectCase.timerFired, 0⟩

/-- A tick in which the peer is shut down while the loop waits and a reset signal
then arrives; the timer is re-armed with 200 ms. -/
def killThenReset : Tick := ⟨false, true, SelectCase.resetSignal, 200000000⟩

/-- A tick without shutdown in which the timer fires. -/
def fire : Tick := ⟨false, false, SelectCase.timerFired, 0⟩

/-- A tick without shutdown in which a reset signal arrives; the timer is re-armed
with 200 ms. -/
def reset : Tick := ⟨false, false, SelectCase.resetSignal, 200000000⟩

/-- A tick in which the peer is shut down before the check of the iteration. -/
def killFirst : Tick := ⟨true, false, SelectCase.timerFired, 0⟩

/-! ## Construction -/

/-- C1: for every peers list, every index me and every persister, the peer returned
by newRaft is in role FOLLOWER with currentTerm 0, votedFor NULL, commitIndex 0 and
lastApplied 0. -/
theorem newRaft_initial_state (d : Decls) (timeout : Nat) (peers : List Nat) (me : Int)
    (persister : Persister) :
    (newRaft d timeout peers me persister).state = fsmState.FOLLOWER ∧
    (newRaft d timeout peers me persister).currentTerm = 0 ∧
    (newRaft d timeout peers me persister).votedFor = d.NULL ∧
    (newRaft d timeout peers me persister).commitIndex = 0 ∧
    (newRaft d timeout peers me persister).lastApplied = 0 :=
  ⟨rfl, rfl, rfl, rfl, rfl⟩

/-- C2: for every input, the log of the peer returned by newRaft has exactly one
element, at index 0, which is the zero-valued sentinel LogEntry (term 0, nil
command); no entry carries a command, nothing follows index 0, and the last log
index is 0. -/
theorem newRaft_log_is_sentinel (d : Decls) (timeout : Nat) (peers : List Nat) (me : Int)
    (persister : Persister) :
    (newRaft d timeout peers me persister).logs.length = 1 ∧
    (newRaft d timeout peers me persister).logs[0]? = some LogEntry.zero ∧
    LogEntry.zero.LogTerm = 0 ∧ LogEntry.zero.Command = none ∧
    (∀ e ∈ (newRaft d timeout peers me persister).logs, e.Command = none) ∧
    (newRaft d timeout peers me persister).logs.drop 1 = [] ∧
    (newRaft d timeout peers me persister).logs.length - 1 = 0 := by
  refine ⟨rfl, rfl, rfl, rfl, ?_, rfl, rfl⟩
  intro e he
  have hlogs : (newRaft d timeout peers me persister).logs = [LogEntry.zero] := rfl
  rw [hlogs, List.mem_singleton] at he
  rw [he]
  rfl

/-- C3, as stated, fails: the persister holds the saved triple (5, 2, log of two
entries), and the peer that newRaft returns has none of the three. -/
theorem newRaft_restores_nothing :
    savedPersister.loadState = some (5, 2, [LogEntry.zero, ⟨5, some 7⟩]) ∧
    (newRaft labDecls 150000000 [10, 11, 12] 0 savedPersister).currentTerm ≠ 5 ∧
    (newRaft labDecls 150000000 [10, 11, 12] 0 savedPersister).votedFor ≠ 2 ∧
    (newRaft labDecls 150000000 [10, 11, 12] 0 savedPersister).logs
      ≠ [LogEntry.zero, ⟨5, some 7⟩] := by
  refine ⟨rfl, ?_, ?_, ?_⟩ <;> decide

/-- C3, amended: newRaft does not read the persister. For every persister that holds
a saved triple, the returned peer has currentTerm 0, votedFor NULL and the log of
the one sentinel, and it keeps the persister, saved triple included, in its
persister field. -/
theorem newRaft_keeps_saved_state_unread (d : Decls) (timeout : Nat) (peers : List Nat)
    (me : Int) (persister : Persister) (t v : Int) (l : List LogEntry)
    (hsaved : persister.loadState = some (t, v, l)) :
    (newRaft d timeout peers me persister).currentTerm = 0 ∧
    (newRaft d timeout peers me persister).votedFor = d.NULL ∧
    (newRaft d timeout peers me persister).logs = [LogEntry.zero] ∧
    (newRaft d timeout peers me persister).persister.loadState = some (t, v, l) :=
  ⟨rfl, rfl, rfl, hsaved⟩

/-- The amended C3 at the persister that holds (5, 2, log of two entries). -/
theorem newRaft_keeps_saved_state_unread_witness :
    savedPersister.loadState = some (5, 2, [LogEntry.zero, ⟨5, some 7⟩]) ∧
    (newRaft labDecls 150000000 [10, 11, 12] 0 savedPersister).currentTerm = 0 ∧
    (newRaft labDecls 150000000 [10, 11, 12] 0 savedPersister).votedFor = labDecls.NULL ∧
    (newRaft labDecls 150000000 [10, 11, 12] 0 savedPersister).logs = [LogEntry.zero] ∧
    (newRaft labDecls 150000000 [10, 11, 12] 0 savedPersister).persister.loadState
      = some (5, 2, [LogEntry.zero, ⟨5, some 7⟩]) :=
  ⟨rfl, newRaft_keeps_saved_state_unread labDecls 150000000 [10, 11, 12] 0 savedPersister
    5 2 [LogEntry.zero, ⟨5, some 7⟩] rfl⟩

/-- C5: in the peer returned by newRaft, whose role is FOLLOWER, the slices nextIndex
and matchIndex are nil: empty, of length 0, for every input. -/
theorem newRaft_no_leader_state (d : Decls) (timeout : Nat) (peers : List Nat) (me : Int)
    (persister : Persister) :
    (newRaft d timeout peers me persister).state = fsmState.FOLLOWER ∧
    (newRaft d timeout peers me persister).nextIndex = [] ∧
    (newRaft d timeout peers me persister).matchIndex = [] ∧
    (newRaft d timeout peers me persister).nextIndex.length = 0 ∧
    (newRaft d timeout peers me persister).matchIndex.length = 0 :=
  ⟨rfl, rfl, rfl, rfl, rfl⟩

/-- C9: in the peer returned by newRaft, commitIndex and lastApplied are valid
indices into logs (at least 0 and below len(logs)), and lastApplied is the index of
the newest element of logs, len(logs) - 1, which is 0. -/
theorem newRaft_indices_in_log (d : Decls) (timeout : Nat) (peers : List Nat) (me : Int)
    (persister : Persister) :
    0 ≤ (newRaft d timeout peers me persister).commitIndex ∧
    (newRaft d timeout peers me persister).commitIndex
      < ((newRaft d timeout peers me persister).logs.length : Int) ∧
    0 ≤ (newRaft d timeout peers me persister).lastApplied ∧
    (newRaft d timeout peers me persister).lastApplied
      < ((newRaft d timeout peers me persister).logs.length : Int) ∧
    (newRaft d timeout peers me persister).lastApplied
      = ((newRaft d timeout peers me persister).logs.length : Int) - 1 ∧
    ((newRaft d timeout peers me persister).logs.length : Int) - 1 = 0 := by
  have hlen : (newRaft d timeout peers me persister).logs.length = 1 := rfl
  have hc : (newRaft d timeout peers me persister).commitIndex = 0 := rfl
  have ha : (newRaft d timeout peers me persister).lastApplied = 0 := rfl
  rw [hlen, hc, ha]
  decide

/-- C10: newRaft keeps its arguments: the returned peer's peers, me and persister
fields are the values passed in, so the peer's identity is the given index me into
the given peers list. -/
theorem newRaft_keeps_arguments (d : Decls) (timeout : Nat) (peers : List Nat) (me : Int)
    (persister : Persister) :
    (newRaft d timeout peers me persister).peers = peers ∧
    (newRaft d timeout peers me persister).me = me ∧
    (newRaft d timeout peers me persister).persister = persister :=
  ⟨rfl, rfl, rfl⟩

/-! ## The loop: helper lemmas -/

theorem shutdown_eq_self (rf : Raft) (h : rf.hasShutdown = true) : rf.shutdown = rf := by
  cases rf with
  | mk a1 a2 a3 a4 a5 a6 a7 a8 a9 a10 a11 a12 a13 a14 sc a16 a17 a18 =>
    cases sc with
    | mk c =>
      simp only [Raft.hasShutdown] at h
      subst h
      rfl

theorem iteration_killed (d : Decls) (rf : Raft) (t : Tick) (hk : t.killBeforeCheck = true) :
    iteration d rf t = (rf.shutdown, [Item.shutdown], true) := by
  simp [iteration, killIf, hk, Raft.hasShutdown, Raft.shutdown]

theorem iteration_shut (d : Decls) (rf : Raft) (t : Tick) (hk : t.killBeforeCheck = false)
    (hs : rf.hasShutdown = true) : iteration d rf t = (rf, [], true) := by
  simp [iteration, killIf, hk, hs]

theorem iteration_timer (d : Decls) (rf : Raft) (t : Tick) (hk : t.killBeforeCheck = false)
    (hs : rf.hasShutdown = false) (hw : t.wake = SelectCase.timerFired) :
    iteration d rf t =
      (d.call d.electionTimeOutEvent none (killIf t.killWhileWaiting rf).1,
        (killIf t.killWhileWaiting rf).2 ++ [Item.call d.electionTimeOutEvent none], false) := by
  simp [iteration, killIf, hk, hs, hw]

theorem iteration_reset (d : Decls) (rf : Raft) (t : Tick) (hk : t.killBeforeCheck = false)
    (hs : rf.hasShutdown = false) (hw : t.wake = SelectCase.resetSignal) :
    iteration d rf t =
      ((killIf t.killWhileWaiting rf).1.electionTimerReset t.timeout,
        (killIf t.killWhileWaiting rf).2 ++ [Item.electionTimerReset], false) := by
  simp [iteration, killIf, hk, hs, hw]

theorem loop_cons_returned (d : Decls) (k : Bool) (rf rf1 : Raft) (t : Tick) (ts : List Tick)
    (tr : List Item) (h : iteration d rf t = (rf1, tr, true)) :
    electionTimeOutLoop d k rf (t :: ts) = ⟨rf1, tr, Outcome.returned⟩ := by
  simp [electionTimeOutLoop, h]

theorem loop_cons_continues (d : Decls) (k : Bool) (rf rf1 : Raft) (t : Tick) (ts : List Tick)
    (tr : List Item) (h : iteration d rf t = (rf1, tr, false)) :
    electionTimeOutLoop d k rf (t :: ts) =
      ⟨(electionTimeOutLoop d k rf1 ts).rf, tr ++ (electionTimeOutLoop d k rf1 ts).trace,
        (electionTimeOutLoop d k rf1 ts).outcome⟩ := by
  simp [electionTimeOutLoop, h]

/-- A run that starts on a peer that has shut down returns at once: the peer is
unchanged and the loop does nothing. -/
theorem loop_of_shut (d : Decls) (k : Bool) (rf : Raft) (ticks : List Tick) (hs : rf.hasShutdown = true) :
    (electionTimeOutLoop d k rf ticks).rf = rf ∧
    loopActions (electionTimeOutLoop d k rf ticks).trace = [] ∧
    (electionTimeOutLoop d k rf ticks).outcome = Outcome.returned := by
  cases ticks with
  | nil => simp [electionTimeOutLoop, hs, loopActions]
  | cons t ts =>
    cases hk : t.killBeforeCheck with
    | true =>
      rw [loop_cons_returned d k rf rf.shutdown t ts [Item.shutdown] (iteration_killed d rf t hk)]
      exact ⟨shutdown_eq_self rf hs, rfl, rfl⟩
    | false =>
      rw [loop_cons_returned d k rf rf t ts [] (iteration_shut d rf t hk hs)]
      exact ⟨rfl, rfl, rfl⟩

/-- Every dispatch in a run is of electionTimeOutEvent with nil arguments. -/
theorem loop_calls_only_timeout (d : Decls) (k : Bool) (ticks : List Tick) :
    ∀ (rf : Raft) (ev : fsmEvent) (a : Option Nat),
      Item.call ev a ∈ (electionTimeOutLoop d k rf ticks).trace →
      ev = d.electionTimeOutEvent ∧ a = none := by
  induction ticks with
  | nil =>
    intro rf ev a h
    cases hs : rf.hasShutdown <;> cases k <;>
      simp [electionTimeOutLoop, hs, killIf] at h
  | cons t ts ih =>
    intro rf ev a h
    cases hk : t.killBeforeCheck with
    | true =>
      rw [loop_cons_returned d k rf rf.shutdown t ts [Item.shutdown] (iteration_killed d rf t hk)] at h
      simp at h
    | false =>
      cases hs : rf.hasShutdown with
      | true =>
        rw [loop_cons_returned d k rf rf t ts [] (iteration_shut d rf t hk hs)] at h
        simp at h
      | false =>
        cases hw : t.wake with
        | timerFired =>
          rw [loop_cons_continues d k rf _ t ts _ (iteration_timer d rf t hk hs hw)] at h
          simp only [List.mem_append, List.mem_singleton] at h
          rcases h with (h | h) | h
          · cases hb : t.killWhileWaiting <;> simp [killIf, hb] at h
          · injection h with h1 h2
            exact ⟨h1, h2⟩
          · exact ih _ ev a h
        | resetSignal =>
          rw [loop_cons_continues d k rf _ t ts _ (iteration_reset d rf t hk hs hw)] at h
          simp only [List.mem_append, List.mem_singleton] at h
          rcases h with (h | h) | h
          · cases hb : t.killWhileWaiting <;> simp [killIf, hb] at h
          · cases h
          · exact ih _ ev a h

/-- A run in which the loop dispatches nothing leaves commitIndex and lastApplied
as they were. -/
theorem loop_indices_of_no_call (d : Decls) (k : Bool) (ticks : List Tick) :
    ∀ (rf : Raft), (∀ ev a, Item.call ev a ∉ (electionTimeOutLoop d k rf ticks).trace) →
      (electionTimeOutLoop d k rf ticks).rf.commitIndex = rf.commitIndex ∧
      (electionTimeOutLoop d k rf ticks).rf.lastApplied = rf.lastApplied := by
  induction ticks with
  | nil =>
    intro rf _
    cases hs : rf.hasShutdown <;> cases k <;>
      simp [electionTimeOutLoop, hs, killIf, Raft.shutdown]
  | cons t ts ih =>
    intro rf h
    cases hk : t.killBeforeCheck with
    | true =>
      rw [loop_cons_returned d k rf rf.shutdown t ts [Item.shutdown] (iteration_killed d rf t hk)]
      exact ⟨rfl, rfl⟩
    | false =>
      cases hs : rf.hasShutdown with
      | true =>
        rw [loop_cons_returned d k rf rf t ts [] (iteration_shut d rf t hk hs)]
        exact ⟨rfl, rfl⟩
      | false =>
        cases hw : t.wake with
        | timerFired =>
          rw [loop_cons_continues d k rf _ t ts _ (iteration_timer d rf t hk hs hw)] at h
          exact absurd (by simp) (h d.electionTimeOutEvent none)
        | resetSignal =>
          rw [loop_cons_continues d k rf _ t ts _ (iteration_reset d rf t hk hs hw)] at h ⊢
          have h2 := ih ((killIf t.killWhileWaiting rf).1.electionTimerReset t.timeout)
            (fun ev a hm => h ev a (by simp [hm]))
          simp only
          rw [h2.1, h2.2]
          cases hb : t.killWhileWaiting <;> simp [killIf, Raft.electionTimerReset, Raft.shutdown]

/-- After the first shutdown in a run the loop acts at most once, provided the
dispatched handler leaves a peer that has shut down shut down. -/
theorem loop_after_shutdown_le_one (d : Decls) (k : Bool)
    (hcall : ∀ ev a rf, rf.hasShutdown = true → (d.call ev a rf).hasShutdown = true) (ticks : List Tick) :
    ∀ (rf : Raft),
      (loopActions (afterShutdown (electionTimeOutLoop d k rf ticks).trace)).length ≤ 1 := by
  induction ticks with
  | nil =>
    intro rf
    cases hs : rf.hasShutdown <;> cases k <;>
      simp [electionTimeOutLoop, hs, killIf, afterShutdown, loopActions]
  | cons t ts ih =>
    intro rf
    cases hk : t.killBeforeCheck with
    | true =>
      rw [loop_cons_returned d k rf rf.shutdown t ts [Item.shutdown] (iteration_killed d rf t hk)]
      simp [afterShutdown, loopActions]
    | false =>
      cases hs : rf.hasShutdown with
      | true =>
        rw [loop_cons_returned d k rf rf t ts [] (iteration_shut d rf t hk hs)]
        simp [afterShutdown, loopActions]
      | false =>
        cases hw : t.wake with
        | timerFired =>
          rw [loop_cons_continues d k rf _ t ts _ (iteration_timer d rf t hk hs hw)]
          cases hb : t.killWhileWaiting with
          | true =>
            have hnext : (d.call d.electionTimeOutEvent none rf.shutdown).hasShutdown = true :=
              hcall _ _ _ rfl
            have h0 := (loop_of_shut d k _ ts hnext).2.1
            simp only [loopActions] at h0
            simp [killIf, afterShutdown, loopActions, List.filter_cons, Item.isLoopAction, h0]
          | false =>
            simpa [killIf, afterShutdown] using ih (d.call d.electionTimeOutEvent none rf)
        | resetSignal =>
          rw [loop_cons_continues d k rf _ t ts _ (iteration_reset d rf t hk hs hw)]
          cases hb : t.killWhileWaiting with
          | true =>
            have hnext : (rf.shutdown.electionTimerReset t.timeout).hasShutdown = true := rfl
            have h0 := (loop_of_shut d k _ ts hnext).2.1
            simp only [loopActions] at h0
            simp [killIf, afterShutdown, loopActions, List.filter_cons, Item.isLoopAction, h0]
          | false =>
            simpa [killIf, afterShutdown] using ih (rf.electionTimerReset t.timeout)

/-- When the loop has acted after a shutdown, it has returned, provided the
dispatched handler leaves a peer that has shut down shut down. -/
theorem loop_returned_after_action (d : Decls) (k : Bool)
    (hcall : ∀ ev a rf, rf.hasShutdown = true → (d.call ev a rf).hasShutdown = true) (ticks : List Tick) :
    ∀ (rf : Raft),
      loopActions (afterShutdown (electionTimeOutLoop d k rf ticks).trace) ≠ [] →
      (electionTimeOutLoop d k rf ticks).outcome = Outcome.returned := by
  induction ticks with
  | nil =>
    intro rf h
    exfalso
    apply h
    cases hs : rf.hasShutdown <;> cases k <;>
      simp [electionTimeOutLoop, hs, killIf, afterShutdown, loopActions]
  | cons t ts ih =>
    intro rf h
    cases hk : t.killBeforeCheck with
    | true =>
      rw [loop_cons_returned d k rf rf.shutdown t ts [Item.shutdown] (iteration_killed d rf t hk)]
    | false =>
      cases hs : rf.hasShutdown with
      | true =>
        rw [loop_cons_returned d k rf rf t ts [] (iteration_shut d rf t hk hs)]
      | false =>
        cases hw : t.wake with
        | timerFired =>
          rw [loop_cons_continues d k rf _ t ts _ (iteration_timer d rf t hk hs hw)] at h ⊢
          cases hb : t.killWhileWaiting with
          | true =>
            have hnext : (d.call d.electionTimeOutEvent none rf.shutdown).hasShutdown = true :=
              hcall _ _ _ rfl
            simpa [killIf, hb] using (loop_of_shut d k _ ts hnext).2.2
          | false =>
            apply ih
            simpa [killIf, hb, afterShutdown] using h
        | resetSignal =>
          rw [loop_cons_continues d k rf _ t ts _ (iteration_reset d rf t hk hs hw)] at h ⊢
          cases hb : t.killWhileWaiting with
          | true =>
            have hnext : (rf.shutdown.electionTimerReset t.timeout).hasShutdown = true := rfl
            simpa [killIf, hb] using (loop_of_shut d k _ ts hnext).2.2
          | false =>
            apply ih
            simpa [killIf, hb, afterShutdown] using h

/-- The proviso on the handler is needed: with a handler that replaces shutdownChan
by an open channel, the loop acts three times after the shutdown and is still
waiting at the end of the schedule. -/
theorem loop_acts_on_after_remake :
    remakeDecls.call remakeDecls.electionTimeOutEvent none startPeer.shutdown
      = { startPeer.shutdown with shutdownChan := Chan.make } ∧
    loopActions (afterShutdown
      (electionTimeOutLoop remakeDecls false startPeer [killThenFire, fire, reset]).trace)
      = [Item.call remakeDecls.electionTimeOutEvent none,
          Item.call remakeDecls.electionTimeOutEvent none, Item.electionTimerReset] ∧
    (electionTimeOutLoop remakeDecls false startPeer [killThenFire, fire, reset]).outcome
      = Outcome.waiting :=
  ⟨rfl, rfl, rfl⟩

/-! ## The loop: the claims -/

/-- C4: commitIndex ≥ lastApplied holds in the state returned by newRaft for every
input, and it is preserved by String, by one iteration of electionTimeOutLoop that
returns at the shutdown check or takes the timer-reset branch, and by every run of
the loop in which it dispatches no event. -/
theorem commitIndex_ge_lastApplied (d : Decls) (timeout : Nat) (peers : List Nat) (me : Int)
    (persister : Persister) :
    (newRaft d timeout peers me persister).inv ∧
    (∀ rf : Raft, rf.inv → (rf.String d).2.inv) ∧
    (∀ (rf : Raft) (t : Tick), rf.inv →
      ((iteration d rf t).2.2 = true ∨ t.wake = SelectCase.resetSignal) →
      (iteration d rf t).1.inv) ∧
    (∀ (k : Bool) (rf : Raft) (ticks : List Tick), rf.inv →
      (∀ ev a, Item.call ev a ∉ (electionTimeOutLoop d k rf ticks).trace) →
      (electionTimeOutLoop d k rf ticks).rf.inv) := by
  refine ⟨?_, ?_, ?_, ?_⟩
  · show (0 : Int) ≥ 0
    exact le_refl 0
  · intro rf h
    exact h
  · intro rf t h hcase
    cases hk : t.killBeforeCheck with
    | true => rw [iteration_killed d rf t hk]; exact h
    | false =>
      cases hs : rf.hasShutdown with
      | true => rw [iteration_shut d rf t hk hs]; exact h
      | false =>
        cases hw : t.wake with
        | timerFired =>
          rw [iteration_timer d rf t hk hs hw] at hcase
          rcases hcase with hc | hc
          · simp at hc
          · rw [hw] at hc; cases hc
        | resetSignal =>
          rw [iteration_reset d rf t hk hs hw]
          cases hb : t.killWhileWaiting <;> exact h
  · intro k rf ticks h hno
    have hkeep := loop_indices_of_no_call d k ticks rf hno
    unfold Raft.inv at h ⊢
    rw [hkeep.1, hkeep.2]
    exact h

/-- C4 at the peer that newRaft returns, under a reset signal and then a shutdown. -/
theorem commitIndex_ge_lastApplied_witness :
    startPeer.inv ∧ (startPeer.String labDecls).2.inv ∧
    (iteration labDecls startPeer reset).1.inv ∧
    (electionTimeOutLoop labDecls false startPeer [reset, killFirst]).rf.inv :=
  have h := commitIndex_ge_lastApplied labDecls 150000000 [10, 11, 12] 0 freshPersister
  ⟨h.1, h.2.1 startPeer h.1, h.2.2.1 startPeer reset h.1 (Or.inr rfl),
    h.2.2.2 false startPeer [reset, killFirst] h.1 (by
      intro ev a hm
      have htr : (electionTimeOutLoop labDecls false startPeer [reset, killFirst]).trace
          = [Item.electionTimerReset, Item.shutdown] := rfl
      rw [htr] at hm
      simp at hm)⟩

/-- C6, as stated, fails: the peer is shut down while the loop waits in the select;
when the timer fires afterwards the loop still dispatches electionTimeOutEvent, and
when a reset signal arrives afterwards the loop still re-arms the timer. -/
theorem electionTimeOutLoop_acts_after_shutdown :
    startPeer.hasShutdown = false ∧
    (electionTimeOutLoop labDecls false startPeer [killThenFire]).trace
      = [Item.shutdown, Item.call labDecls.electionTimeOutEvent none] ∧
    (electionTimeOutLoop labDecls false startPeer [killThenReset]).trace
      = [Item.shutdown, Item.electionTimerReset] ∧
    startPeer.electionTimer = ⟨150000000⟩ ∧
    (electionTimeOutLoop labDecls false startPeer [killThenReset]).rf.electionTimer
      = ⟨200000000⟩ :=
  ⟨rfl, rfl, rfl, rfl, rfl⟩

/-- C6, amended: a run of electionTimeOutLoop that starts with hasShutdown true
returns at once with no dispatch, no timer reset and no change of the peer. The
select does not watch shutdownChan, so a shutdown that arrives while the loop waits
is seen at the check of the next iteration. Provided the handler that rf.call
dispatches leaves a peer that has shut down shut down (hypothesis hcall: it does
not replace shutdownChan by an open channel), after a shutdown the loop performs at
most one more action, and once it has performed that action it has returned. -/
theorem electionTimeOutLoop_shutdown (d : Decls)
    (hcall : ∀ ev a rf, rf.hasShutdown = true → (d.call ev a rf).hasShutdown = true)
    (k : Bool) (rf : Raft) (ticks : List Tick) :
    (rf.hasShutdown = true →
      (electionTimeOutLoop d k rf ticks).rf = rf ∧
      loopActions (electionTimeOutLoop d k rf ticks).trace = [] ∧
      (electionTimeOutLoop d k rf ticks).outcome = Outcome.returned) ∧
    (loopActions (afterShutdown (electionTimeOutLoop d k rf ticks).trace)).length ≤ 1 ∧
    (loopActions (afterShutdown (electionTimeOutLoop d k rf ticks).trace) ≠ [] →
      (electionTimeOutLoop d k rf ticks).outcome = Outcome.returned) :=
  ⟨loop_of_shut d k rf ticks, loop_after_shutdown_le_one d k hcall ticks rf,
    loop_returned_after_action d k hcall ticks rf⟩

/-- The amended C6 at a peer that is shut down before the run, and at the peer that
newRaft returns when it is shut down while the loop waits and the timer then
fires. -/
theorem electionTimeOutLoop_shutdown_witness :
    (∀ ev a rf, rf.hasShutdown = true → (labDecls.call ev a rf).hasShutdown = true) ∧
    ((electionTimeOutLoop labDecls false startPeer.shutdown [fire, reset]).rf
        = startPeer.shutdown ∧
      loopActions (electionTimeOutLoop labDecls false startPeer.shutdown [fire, reset]).trace
        = [] ∧
      (electionTimeOutLoop labDecls false startPeer.shutdown [fire, reset]).outcome
        = Outcome.returned) ∧
    (loopActions (afterShutdown
      (electionTimeOutLoop labDecls false startPeer
        [reset, killThenFire, fire, reset]).trace)).length ≤ 1 ∧
    (electionTimeOutLoop labDecls false startPeer [reset, killThenFire, fire, reset]).outcome
      = Outcome.returned :=
  ⟨fun _ _ _ h => h,
    (electionTimeOutLoop_shutdown labDecls (fun _ _ _ h => h) false startPeer.shutdown
      [fire, reset]).1 rfl,
    (electionTimeOutLoop_shutdown labDecls (fun _ _ _ h => h) false startPeer
      [reset, killThenFire, fire, reset]).2.1,
    (electionTimeOutLoop_shutdown labDecls (fun _ _ _ h => h) false startPeer
      [reset, killThenFire, fire, reset]).2.2 (by
        have htr : (electionTimeOutLoop labDecls false startPeer
            [reset, killThenFire, fire, reset]).trace
            = [Item.electionTimerReset, Item.shutdown,
                Item.call labDecls.electionTimeOutEvent none] := rfl
        rw [htr]
        simp [afterShutdown, loopActions, Item.isLoopAction])⟩

/-- C8: an iteration of electionTimeOutLoop that starts with the peer not shut down
does not return and does exactly one thing: when the timer fires, the single action
is the dispatch of electionTimeOutEvent with nil arguments and the peer is the one
the dispatch leaves (no timer reset by the loop); when a reset signal arrives, the
single action is electionTimerReset and nothing is dispatched. In every run of the
loop every dispatched event is electionTimeOutEvent with nil arguments. -/
theorem electionTimeOutLoop_iteration (d : Decls) (rf : Raft) (t : Tick)
    (hrun : (killIf t.killBeforeCheck rf).1.hasShutdown = false) :
    (iteration d rf t).2.2 = false ∧
    (t.wake = SelectCase.timerFired →
      loopActions (iteration d rf t).2.1 = [Item.call d.electionTimeOutEvent none] ∧
      (iteration d rf t).1
        = d.call d.electionTimeOutEvent none (killIf t.killWhileWaiting rf).1) ∧
    (t.wake = SelectCase.resetSignal →
      loopActions (iteration d rf t).2.1 = [Item.electionTimerReset] ∧
      (iteration d rf t).1 = (killIf t.killWhileWaiting rf).1.electionTimerReset t.timeout) ∧
    (∀ (k : Bool) (ticks : List Tick) (ev : fsmEvent) (a : Option Nat),
      Item.call ev a ∈ (electionTimeOutLoop d k rf ticks).trace →
      ev = d.electionTimeOutEvent ∧ a = none) := by
  have hk : t.killBeforeCheck = false := by
    cases hb : t.killBeforeCheck with
    | false => rfl
    | true => simp [killIf, hb, Raft.hasShutdown, Raft.shutdown] at hrun
  have hs : rf.hasShutdown = false := by
    simpa [killIf, hk] using hrun
  refine ⟨?_, ?_, ?_, fun k ticks => loop_calls_only_timeout d k ticks rf⟩
  · cases hw : t.wake with
    | timerFired => rw [iteration_timer d rf t hk hs hw]
    | resetSignal => rw [iteration_reset d rf t hk hs hw]
  · intro hw
    rw [iteration_timer d rf t hk hs hw]
    refine ⟨?_, rfl⟩
    cases hb : t.killWhileWaiting <;> simp [killIf, loopActions, Item.isLoopAction]
  · intro hw
    rw [iteration_reset d rf t hk hs hw]
    refine ⟨?_, rfl⟩
    cases hb : t.killWhileWaiting <;> simp [killIf, loopActions, Item.isLoopAction]

/-- C8 at the peer that newRaft returns: the timer fires in one iteration, a reset
signal arrives in another. -/
theorem electionTimeOutLoop_iteration_witness :
    (killIf fire.killBeforeCheck startPeer).1.hasShutdown = false ∧
    (loopActions (iteration labDecls startPeer fire).2.1
        = [Item.call labDecls.electionTimeOutEvent none] ∧
      (iteration labDecls startPeer fire).1
        = labDecls.call labDecls.electionTimeOutEvent none startPeer) ∧
    (killIf reset.killBeforeCheck startPeer).1.hasShutdown = false ∧
    (loopActions (iteration labDecls startPeer reset).2.1 = [Item.electionTimerReset] ∧
      (iteration labDecls startPeer reset).1 = startPeer.electionTimerReset 200000000) :=
  ⟨rfl, (electionTimeOutLoop_iteration labDecls startPeer fire rfl).2.1 rfl,
    rfl, (electionTimeOutLoop_iteration labDecls startPeer reset rfl).2.2.1 rfl⟩

end raft
